import Mathlib

/-!
Verification development for the aetoms repository.

The Python sources (aetoms/models.py, aetoms/styles.py, aetoms/viewer.py)
are shallowly embedded below.  Floating-point inputs are modelled as exact
rationals; Python dictionaries are modelled as association lists with
insertion-order update semantics; Python exceptions are modelled with an
explicit error component; calls into the external 3Dmol render target are
recorded as an explicit trace of render calls.  The in-place mutation of
style dictionaries performed by AtomStyle.apply (the local style dictionary
aliases the style_specs entries) is modelled by threading the style_specs
store through the loops and returning the updated style value.
-/

namespace Aetoms

/-! ### Number and string formatting, translated from the format strings
used by the function pdb in models.py -/

/-- The magnitude of a rational scaled by the given power of ten and
rounded to the nearest integer, ties to even, as Python's fixed-point
float formatting does.  Computed on the numerator and denominator so that
every step is plain natural-number arithmetic. -/
def scaledMagnitude (prec : ℕ) (q : ℚ) : ℕ :=
  let n := q.num.natAbs * 10 ^ prec
  let d := q.den
  if 2 * (n % d) < d then n / d
  else if d < 2 * (n % d) then n / d + 1
  else if (n / d) % 2 = 0 then n / d else n / d + 1

/-- A run of n spaces. -/
def spaces (n : ℕ) : String :=
  String.join (List.replicate n " ")

/-- Pad a string with spaces on the left up to the given width, as Python's
right-aligned format fields do. -/
def padLeft (w : ℕ) (s : String) : String :=
  if s.length < w then spaces (w - s.length) ++ s else s

/-- Pad a string with spaces on the right up to the given width, as Python's
string format fields do. -/
def padRight (w : ℕ) (s : String) : String :=
  if s.length < w then s ++ spaces (w - s.length) else s

/-- Pad a digit string with zeros on the left up to the given width. -/
def padLeftZeros (w : ℕ) (s : String) : String :=
  if s.length < w then String.join (List.replicate (w - s.length) "0") ++ s else s

/-- Fixed-point formatting of a rational with the given field width and
number of decimals, matching Python's fixed-point float format fields.
The sign is taken from the numerator, the magnitude from the scaled
rounding above. -/
def formatFixed (width prec : ℕ) (q : ℚ) : String :=
  let mag := scaledMagnitude prec q
  let body := (if q.num < 0 then "-" else "") ++ toString (mag / 10 ^ prec) ++
    "." ++ padLeftZeros prec (toString (mag % 10 ^ prec))
  padLeft width body

/-- The header block of the pdb output, translated from the header format
string in models.py: cell lengths in width-8/3-decimal fields, cell angles
in width-6/2-decimal fields, then the MODEL line. -/
def pdbHeader (a b c alpha beta gamma : ℚ) (model : ℤ) : String :=
  "CRYST1 " ++ formatFixed 8 3 a ++ " " ++ formatFixed 8 3 b ++ " " ++
    formatFixed 8 3 c ++ " " ++ formatFixed 6 2 alpha ++ " " ++
    formatFixed 6 2 beta ++ " " ++ formatFixed 6 2 gamma ++
    " P 1\nMODEL     " ++ toString model ++ "\n"

/-- One ATOM record, translated from the atom format string in models.py:
width-6 integer id, width-2 symbol, three width-7/3-decimal coordinates,
a width-5/2-decimal occupancy, a constant B-factor field, and the symbol
again at the end of the record. -/
def atomLine (i : ℕ) (t : String) (x y z occ : ℚ) : String :=
  "ATOM " ++ padLeft 6 (toString i) ++ "   " ++ padRight 2 t ++
    " MOL     1     " ++ formatFixed 7 3 x ++ " " ++ formatFixed 7 3 y ++ " " ++
    formatFixed 7 3 z ++ " " ++ formatFixed 5 2 occ ++ "  0.00          " ++
    padRight 2 t ++ "\n"

/-- The atom-record loop of pdb.  Indexing the symbol list beyond its end
is an IndexError in Python, modelled as none. -/
def pdbAtoms (types : List String) : ℕ → List (ℚ × ℚ × ℚ) → Option String
  | _, [] => some ""
  | i, coo :: rest =>
    match types.get? i with
    | none => none
    | some t =>
      match pdbAtoms types (i + 1) rest with
      | none => none
      | some s => some (atomLine i t coo.1 coo.2.1 coo.2.2 0 ++ s)

/-- Translation of the function pdb in models.py: header, one ATOM record
per coordinate row, and the ENDMOL terminator line. -/
def pdb (coords : List (ℚ × ℚ × ℚ)) (types : List String)
    (a b c alpha beta gamma : ℚ) (model : ℤ) : Option String :=
  match pdbAtoms types 0 coords with
  | none => none
  | some body => some (pdbHeader a b c alpha beta gamma model ++ body ++ "ENDMOL\n")

/-- Concatenation of a list of record strings. -/
def concatLines : List String → String
  | [] => ""
  | s :: rest => s ++ concatLines rest

/-- Total lookup into the symbol list with an irrelevant default value,
used only to state the record decomposition of pdb. -/
def getSym (types : List String) (i : ℕ) : String :=
  (types.get? i).getD ""

/-! ### Python dictionaries as ordered association lists -/

/-- A Python value occurring in selection and style-parameter
dictionaries. -/
inductive PyVal where
  | int (i : ℤ)
  | str (s : String)
  | rat (q : ℚ)
deriving DecidableEq

/-- A Python dictionary with string keys, in insertion order. -/
abbrev PyDict := List (String × PyVal)

/-- Python dict assignment: overwrite in place when the key exists, append
otherwise. -/
def dictSet (d : PyDict) (k : String) (v : PyVal) : PyDict :=
  if d.any (fun p => p.1 == k) then
    d.map (fun p => if p.1 == k then (k, v) else p)
  else d ++ [(k, v)]

/-- Python dict.update: assign every pair of the second dictionary in
order. -/
def dictUpdate (d other : PyDict) : PyDict :=
  other.foldl (fun acc p => dictSet acc p.1 p.2) d

/-- The element-to-color tables of styles.py. -/
abbrev ColorTable := List (String × String)

/-- Dict assignment for color tables. -/
def colorSet (d : ColorTable) (k v : String) : ColorTable :=
  if d.any (fun p => p.1 == k) then
    d.map (fun p => if p.1 == k then (k, v) else p)
  else d ++ [(k, v)]

/-- Dict.update for color tables. -/
def colorUpdate (d other : ColorTable) : ColorTable :=
  other.foldl (fun acc p => colorSet acc p.1 p.2) d

/-- Key lookup in a color table. -/
def colorGet (d : ColorTable) (k : String) : Option String :=
  (d.find? (fun p => p.1 == k)).map (fun p => p.2)

/-! ### Color tables and styles, translated from styles.py -/

/-- The CPK table of styles.py, in source order. -/
def CPK : ColorTable :=
  [("H", "white"), ("C", "black"), ("N", "blue"), ("O", "red"),
   ("F", "green"), ("Cl", "green"), ("Br", "0x8b0000"), ("I", "0x9400d3"),
   ("He", "cyan"), ("Ne", "cyan"), ("Ar", "cyan"), ("Ce", "cyan"),
   ("Kr", "cyan"), ("P", "orange"), ("S", "yellow"), ("B", "0xffa07a"),
   ("Li", "violet"), ("Na", "violet"), ("K", "violet"), ("Rb", "violet"),
   ("Cs", "violet"), ("Fr", "violet"), ("Be", "0x2e8b57"), ("Mg", "0x2e8b57"),
   ("Ca", "0x2e8b57"), ("Sr", "0x2e8b57"), ("Ba", "0x2e8b57"),
   ("Ra", "0x2e8b57"), ("Ti", "0x808080"), ("Fe", "0xff8c00"),
   ("default", "0xda70d6")]

/-- DEFAULT_COLORS of styles.py: a copy of CPK updated with further
entries; existing keys keep their position, new keys are appended. -/
def DEFAULT_COLORS : ColorTable :=
  colorUpdate CPK
    [("Li", "0x32cd32"), ("Sc", "0x6b8e23"), ("Ti", "0x48d1cc"),
     ("V", "0xC71585"), ("Cr", "0x87cefa"), ("Mn", "0x8b008b"),
     ("Co", "0x00008b"), ("Ni", "blue"), ("Cu", "0x8b0000"),
     ("Zn", "0xadd8e6"), ("Pt", "cyan"), ("Ir", "violet")]

/-- Translation of the class AtomStyle of styles.py: a list of primitive
style names, an element-to-color table, and one parameter dictionary per
primitive style. -/
structure AtomStyle where
  styles : List String
  colors : ColorTable
  style_specs : List PyDict
deriving DecidableEq

/-- The AtomStyle constructor: one primitive style with its parameter
dictionary. -/
def AtomStyle.init (style : String) (colors : ColorTable) (specs : PyDict) :
    AtomStyle :=
  { styles := [style], colors := colors, style_specs := [specs] }

/-- Translation of AtomStyle.add_style: append a further primitive style
and its parameter dictionary. -/
def AtomStyle.add_style (s : AtomStyle) (style : String) (specs : PyDict) :
    AtomStyle :=
  { s with styles := s.styles ++ [style], style_specs := s.style_specs ++ [specs] }

/-- A call into the external render target, as recorded by the embedding. -/
inductive RenderCall where
  | setStyle (sel : PyDict) (style : List (String × PyDict))
  | setFrame (i : ℤ)
deriving DecidableEq

/-- Indexing into the style_specs store.  All styles constructed through
AtomStyle.init and AtomStyle.add_style have exactly one parameter
dictionary per primitive style, so the index is always in range there. -/
def specsGet (sp : List PyDict) (i : ℕ) : PyDict :=
  sp.getD i []

/-- Write a color entry into the parameter dictionary at the given index of
the style_specs store.  This models the Python statements that assign to
the color key of a dictionary aliased by the local style dictionary. -/
def setColorAt (sp : List PyDict) (i : ℕ) (c : String) : List PyDict :=
  sp.set i (dictSet (specsGet sp i) "color" (PyVal.str c))

/-- The first loop of AtomStyle.apply: build the local style dictionary
mapping each primitive style name to the index of its parameter dictionary
(the Python dictionary holds references into style_specs), and, when a
default color exists, write it into each referenced parameter dictionary. -/
def buildStyleDict (dc : Option String) :
    ℕ → List String → List (String × ℕ) → List PyDict →
    List (String × ℕ) × List PyDict
  | _, [], sd, sp => (sd, sp)
  | i, st :: rest, sd, sp =>
    let sd2 := if sd.any (fun p => p.1 == st) then
        sd.map (fun p => if p.1 == st then (st, i) else p)
      else sd ++ [(st, i)]
    let sp2 := match dc with
      | none => sp
      | some c => setColorAt sp i c
    buildStyleDict dc (i + 1) rest sd2 sp2

/-- Materialize the local style dictionary into the value passed to a
setStyle call: resolve each reference into the current style_specs store. -/
def materializeStyleDict (sd : List (String × ℕ)) (sp : List PyDict) :
    List (String × PyDict) :=
  sd.map (fun p => (p.1, specsGet sp p.2))

/-- Write the given color into every parameter dictionary referenced by the
local style dictionary, as the per-species loop body of AtomStyle.apply
does through the shallow copy of the style dictionary. -/
def mutateColors (sd : List (String × ℕ)) (c : String) (sp : List PyDict) :
    List PyDict :=
  sd.foldl (fun acc p => setColorAt acc p.2 c) sp

/-- The second loop of AtomStyle.apply: for every non-default entry of the
color table, write that color into all referenced parameter dictionaries
and issue one setStyle call restricted to atoms of that element. -/
def speciesLoop (sd : List (String × ℕ)) (sel : PyDict) :
    ColorTable → List PyDict → List PyDict × List RenderCall
  | [], sp => (sp, [])
  | p :: rest, sp =>
    if p.1 = "default" then speciesLoop sd sel rest sp
    else
      let sp2 := mutateColors sd p.2 sp
      let res := speciesLoop sd sel rest sp2
      (res.1,
       RenderCall.setStyle (dictUpdate [("elem", PyVal.str p.1)] sel)
         (materializeStyleDict sd sp2) :: res.2)

/-- Translation of AtomStyle.apply in styles.py.  The calls issued to the
render target are returned as a trace; the in-place mutation of the
style_specs dictionaries (aliased by the local style dictionary) is
reflected in the returned style value. -/
def AtomStyle.apply (s : AtomStyle) (selection : Option PyDict) :
    AtomStyle × List RenderCall :=
  let sel := selection.getD []
  let dc := colorGet s.colors "default"
  let bd := buildStyleDict dc 0 s.styles [] s.style_specs
  let sl := speciesLoop bd.1 sel s.colors bd.2
  ({ s with style_specs := sl.1 },
   RenderCall.setStyle sel (materializeStyleDict bd.1 bd.2) :: sl.2)

/-- Translation of the class StickStyle of styles.py. -/
def StickStyle (bond_radius : ℚ) : AtomStyle :=
  AtomStyle.init "stick" DEFAULT_COLORS [("radius", PyVal.rat bond_radius)]

/-- Translation of the class VanDerWaalsStyle of styles.py. -/
def VanDerWaalsStyle (sphere_scale : ℚ) : AtomStyle :=
  AtomStyle.init "sphere" DEFAULT_COLORS [("scale", PyVal.rat sphere_scale)]

/-- Translation of the class BallAndStickStyle of styles.py: a sphere style
with a stick style added. -/
def BallAndStickStyle (sphere_scale bond_radius : ℚ) : AtomStyle :=
  (AtomStyle.init "sphere" DEFAULT_COLORS
      [("scale", PyVal.rat sphere_scale)]).add_style
    "stick" [("radius", PyVal.rat bond_radius)]

/-! ### Models, translated from models.py -/

/-- A style argument: either a registry name or a style object, as
models.py accepts both. -/
inductive RepStyle where
  | str (s : String)
  | style (a : AtomStyle)
deriving DecidableEq

/-- The atom_styles registry of models.py, with the default constructor
arguments of each style class. -/
def atom_styles : List (String × AtomStyle) :=
  [("bs", BallAndStickStyle (Rat.divInt 2 5) (Rat.divInt 1 10)),
   ("ballsticks", BallAndStickStyle (Rat.divInt 2 5) (Rat.divInt 1 10)),
   ("s", StickStyle (Rat.divInt 1 10)),
   ("sticks", StickStyle (Rat.divInt 1 10)),
   ("vdw", VanDerWaalsStyle 1),
   ("vanderwaals", VanDerWaalsStyle 1),
   ("default", BallAndStickStyle (Rat.divInt 2 5) (Rat.divInt 1 10))]

/-- Registry lookup as done by add_representation and
update_representation: a name found in atom_styles is replaced by the
registered style, anything else is kept as given. -/
def resolveStyle (st : RepStyle) : RepStyle :=
  match st with
  | RepStyle.str s =>
    match atom_styles.find? (fun p => p.1 == s) with
    | some p => RepStyle.style p.2
    | none => RepStyle.str s
  | RepStyle.style a => RepStyle.style a

/-- A Python exception, as raised by the embedded operations. -/
inductive PyErr where
  | indexError
  | attributeError
  | valueError (msg : String)
deriving DecidableEq

/-- The message of the ValueError raised by Model.update on an unattached
model. -/
def notAttachedMsg : String :=
  "Model has to be added to a view before it can be updated."

/-- Translation of the class Model of models.py.  The py3Dmol handles are
abstracted: the field after show_cell records the model id assigned by
add_to_view, and the last field records whether a render-target model
handle is present. -/
structure Model where
  frames : List String
  active_frame : ℤ
  representations : List (PyDict × RepStyle)
  frmt : String
  show_cell : Bool
  model_id : Option ℤ
  _model : Option Unit
deriving DecidableEq

/-- Translation of Model.add_representation: merge the default selection
with the given one, resolve the style through the registry, and append. -/
def Model.add_representation (m : Model) (style : RepStyle)
    (selection : Option PyDict) : Model :=
  let sel0 : PyDict := [("model", PyVal.int (-1))]
  let sel := match selection with
    | none => sel0
    | some s => dictUpdate sel0 s
  { m with representations := m.representations ++ [(sel, resolveStyle style)] }

/-- Translation of the Model constructor: store the frames, add one initial
representation with the given style, and leave the model unattached. -/
def Model.init (frames : List String) (show_cell : Bool) (style : RepStyle) :
    Model :=
  Model.add_representation
    { frames := frames, active_frame := -1, representations := [],
      frmt := "pdb", show_cell := show_cell, model_id := none, _model := none }
    style none

/-- Translation of the num_frames property. -/
def Model.num_frames (m : Model) : ℕ :=
  m.frames.length

/-- Python list index resolution: a negative index counts from the end; an
index out of range is an IndexError, modelled as none. -/
def pyIndex (len : ℕ) (i : ℤ) : Option ℕ :=
  let j : ℤ := if i < 0 then (len : ℤ) + i else i
  if 0 ≤ j ∧ j < (len : ℤ) then some j.toNat else none

/-- Python list read with the pythonic index convention. -/
def pyGet {α : Type} (l : List α) (i : ℤ) : Option α :=
  match pyIndex l.length i with
  | none => none
  | some j => l.get? j

/-- Python list assignment with the pythonic index convention. -/
def pySet {α : Type} (l : List α) (i : ℤ) (v : α) : Option (List α) :=
  match pyIndex l.length i with
  | none => none
  | some j => some (l.set j v)

/-- The loop of Model.update: apply each stored representation in order,
threading the style mutations; a representation whose style is still a
plain string has no apply method, which is an AttributeError aborting the
loop. -/
def applyReps : List (PyDict × RepStyle) →
    List (PyDict × RepStyle) × List RenderCall × Option PyErr
  | [] => ([], [], none)
  | (sel, RepStyle.str s) :: rest =>
    ((sel, RepStyle.str s) :: rest, [], some PyErr.attributeError)
  | (sel, RepStyle.style st) :: rest =>
    let a := AtomStyle.apply st (some sel)
    let r := applyReps rest
    ((sel, RepStyle.style a.1) :: r.1, a.2 ++ r.2.1, r.2.2)

/-- Translation of Model.update: raise the not-attached ValueError on an
unattached model, otherwise re-apply every representation in order and
re-set the stored active frame on the render target. -/
def Model.update (m : Model) : Model × List RenderCall × Option PyErr :=
  match m._model with
  | none => (m, [], some (PyErr.valueError notAttachedMsg))
  | some _ =>
    let r := applyReps m.representations
    let m2 := { m with representations := r.1 }
    match r.2.2 with
    | some e => (m2, r.2.1, some e)
    | none => (m2, r.2.1 ++ [RenderCall.setFrame m.active_frame], none)

/-- The base selection computed by Model.update_representation: the stored
model id when the model has been attached, the implicit last model
otherwise, updated with the caller's selection. -/
def Model.new_selection (m : Model) (selection : Option PyDict) : PyDict :=
  let sel0 : PyDict := match m.model_id with
    | some mid => [("model", PyVal.int mid)]
    | none => [("model", PyVal.int (-1))]
  match selection with
  | none => sel0
  | some s => dictUpdate sel0 s

/-- Translation of Model.update_representation: assign the new pair at the
given list index with Python's index semantics, then call update.  An
out-of-range index is an IndexError before any mutation; a failing update
leaves the already-performed replacement in place. -/
def Model.update_representation (m : Model) (style : RepStyle)
    (selection : Option PyDict) (representation : ℤ) :
    Model × List RenderCall × Option PyErr :=
  match pySet m.representations representation
      (m.new_selection selection, resolveStyle style) with
  | none => (m, [], some PyErr.indexError)
  | some reps => Model.update { m with representations := reps }

/-- Resolution of a stored frame index to the index passed to the render
target: a negative stored value counts from the end. -/
def resolveFrameIndex (n : ℕ) (i : ℤ) : ℤ :=
  if i < 0 then (n : ℤ) + i else i

/-- Translation of the active_frame setter of models.py: clamp the request
into the valid symmetric range, store it, and, when a render-target handle
is present, request that frame after resolving a negative value. -/
def Model.set_active_frame (m : Model) (frame : ℤ) : Model × List RenderCall :=
  let n : ℤ := (m.num_frames : ℤ)
  let i := max (-n) (min frame (n - 1))
  let m2 := { m with active_frame := i }
  match m._model with
  | none => (m2, [])
  | some _ => (m2, [RenderCall.setFrame (resolveFrameIndex m.num_frames i)])

/-! ### Viewer, translated from viewer.py -/

/-- Translation of the class Viewer of viewer.py; the py3Dmol view handle
and the widget state are abstracted away. -/
structure Viewer where
  width : ℤ
  height : ℤ
  models : List Model
  active_model : Option ℤ
deriving DecidableEq

/-- Translation of the num_models property. -/
def Viewer.num_models (v : Viewer) : ℕ :=
  v.models.length

/-- Translation of the active_model setter of viewer.py: none when there
are no models, otherwise the request clamped into the valid symmetric
range. -/
def Viewer.set_active_model (v : Viewer) (model : ℤ) : Viewer :=
  if v.num_models = 0 then { v with active_model := none }
  else
    { v with
      active_model :=
        some (max (-(v.num_models : ℤ)) (min model ((v.num_models : ℤ) - 1))) }

/-- The model addressed by the viewer: the models list indexed at the
stored active_model with Python's index semantics, as the viewer's
properties do. -/
def Viewer.current_model (v : Viewer) : Option Model :=
  match v.active_model with
  | none => none
  | some i => pyGet v.models i

/-! ### Fixtures used by the concrete theorems below -/

/-- A freshly constructed model with a single frame. -/
def testModel1 : Model :=
  Model.init ["frame one"] true (RepStyle.str "default")

/-- A freshly constructed model with three frames. -/
def testModel3 : Model :=
  Model.init ["fa", "fb", "fc"] true (RepStyle.str "default")

/-- The single-frame model after adding a sticks representation. -/
def testModel8 : Model :=
  testModel1.add_representation (RepStyle.str "sticks") none

/-- The single-frame model attached to a view. -/
def attachedModel : Model :=
  { testModel1 with model_id := some 0, _model := some () }

/-- A viewer holding two models. -/
def testViewer : Viewer :=
  { width := 600, height := 400, models := [testModel1, testModel3],
    active_model := some 0 }

/-- The ball-and-stick style with its default constructor arguments. -/
def testBS : AtomStyle :=
  BallAndStickStyle (Rat.divInt 2 5) (Rat.divInt 1 10)

/-- The stick style with its default constructor arguments. -/
def testStick : AtomStyle :=
  StickStyle (Rat.divInt 1 10)

/-- Whether every stored representation carries a resolved style object. -/
def stylesResolved : List (PyDict × RepStyle) → Bool
  | [] => true
  | (_, RepStyle.str _) :: _ => false
  | (_, RepStyle.style _) :: rest => stylesResolved rest

/-- The render calls produced by applying each stored representation in
order, with the style mutations threaded through. -/
def repsTrace : List (PyDict × RepStyle) → List RenderCall
  | [] => []
  | (_, RepStyle.str _) :: _ => []
  | (sel, RepStyle.style st) :: rest => (st.apply (some sel)).2 ++ repsTrace rest

/-- A representation list holding one van-der-Waals representation with
the default selection. -/
def vdwRep : List (PyDict × RepStyle) :=
  [([("model", PyVal.int (-1))], RepStyle.style (VanDerWaalsStyle 1))]

/-- A representation list holding one stick representation with the
default selection. -/
def sticksRep : List (PyDict × RepStyle) :=
  [([("model", PyVal.int (-1))], RepStyle.style (StickStyle (Rat.divInt 1 10)))]

/-! ### Theorems -/

/-- The atom-record loop of pdb succeeds when the symbol list covers the
remaining rows, and produces one record per row, the record for the row at
offset j from the start carrying the id and the symbol at that position. -/
theorem pdbAtoms_eq (types : List String) (coords : List (ℚ × ℚ × ℚ)) :
    ∀ k : ℕ, k + coords.length ≤ types.length →
      pdbAtoms types k coords =
        some (concatLines ((coords.enumFrom k).map
          (fun p => atomLine p.1 (getSym types p.1) p.2.1 p.2.2.1 p.2.2.2 0))) := by
  induction coords with
  | nil => intro k h; rfl
  | cons c rest ih =>
    intro k h
    have hk : k < types.length := by
      simp only [List.length_cons] at h
      omega
    have hget : types.get? k = some (types.get ⟨k, hk⟩) := List.get?_eq_get hk
    have hsym : getSym types k = types.get ⟨k, hk⟩ := by
      unfold getSym
      rw [hget]
      rfl
    have hrest := ih (k + 1) (by simp only [List.length_cons] at h; omega)
    simp only [pdbAtoms, hget, hrest, List.enumFrom, List.map, concatLines, hsym]

/-- C1: for every coordinate list of N rows and symbol list of at least N
entries, pdb returns a string consisting of the header block, then exactly
N atom records in input order, the i-th record carrying the sequential id i
starting at 0 and the i-th element symbol, then the terminator line
ENDMOL. -/
theorem C1_pdb_record_structure (coords : List (ℚ × ℚ × ℚ)) (types : List String)
    (a b c alpha beta gamma : ℚ) (model : ℤ)
    (h : coords.length ≤ types.length) :
    pdb coords types a b c alpha beta gamma model =
      some (pdbHeader a b c alpha beta gamma model ++
        concatLines ((coords.enumFrom 0).map
          (fun p => atomLine p.1 (getSym types p.1) p.2.1 p.2.2.1 p.2.2.2 0)) ++
        "ENDMOL\n") ∧
    ((coords.enumFrom 0).map
      (fun p => atomLine p.1 (getSym types p.1) p.2.1 p.2.2.1 p.2.2.2 0)).length =
      coords.length := by
  constructor
  · unfold pdb
    rw [pdbAtoms_eq types coords 0 (by omega)]
  · simp

/-- Witness for C1 at a concrete one-atom input. -/
theorem C1_witness :
    [((5:ℚ), (6:ℚ), (7:ℚ))].length ≤ ["C"].length ∧
    (pdb [((5:ℚ), (6:ℚ), (7:ℚ))] ["C"] 2 3 4 90 90 90 2 =
      some (pdbHeader 2 3 4 90 90 90 2 ++
        concatLines (([((5:ℚ), (6:ℚ), (7:ℚ))].enumFrom 0).map
          (fun p => atomLine p.1 (getSym ["C"] p.1) p.2.1 p.2.2.1 p.2.2.2 0)) ++
        "ENDMOL\n")) :=
  ⟨by decide,
   (C1_pdb_record_structure [((5:ℚ), (6:ℚ), (7:ℚ))] ["C"] 2 3 4 90 90 90 2
     (by decide)).1⟩

set_option maxRecDepth 40000 in
/-- C2: pdb on two atoms, H at the origin and O at the unit diagonal, with
the unit cell of edge 1 and right angles and model number 1, returns
exactly the claimed CRYST1 header line, the MODEL line, two atom records
with ids 0 and 1, and the ENDMOL terminator line. -/
theorem C2_pdb_two_atom_scenario :
    pdb [((0:ℚ), (0:ℚ), (0:ℚ)), ((1:ℚ), (1:ℚ), (1:ℚ))] ["H", "O"]
        1 1 1 90 90 90 1 =
      some ("CRYST1    1.000    1.000    1.000  90.00  90.00  90.00 P 1\n" ++
        "MODEL     1\n" ++
        "ATOM      0   H  MOL     1       0.000   0.000   0.000  0.00  0.00          H \n" ++
        "ATOM      1   O  MOL     1       1.000   1.000   1.000  0.00  0.00          O \n" ++
        "ENDMOL\n") := by
  decide

/-- The model returned by set_active_frame stores the clamped index and
changes no other field. -/
theorem set_active_frame_fst (m : Model) (f : ℤ) :
    (m.set_active_frame f).1 =
      { m with
        active_frame := max (-(m.num_frames : ℤ)) (min f ((m.num_frames : ℤ) - 1)) } := by
  unfold Model.set_active_frame
  cases hm : m._model <;> rfl

/-- set_active_frame does not change the number of frames. -/
theorem set_active_frame_num_frames (m : Model) (f : ℤ) :
    (m.set_active_frame f).1.num_frames = m.num_frames := by
  rw [set_active_frame_fst]
  rfl

/-- The active frame stored by set_active_frame is the clamped request. -/
theorem set_active_frame_active (m : Model) (f : ℤ) :
    (m.set_active_frame f).1.active_frame =
      max (-(m.num_frames : ℤ)) (min f ((m.num_frames : ℤ) - 1)) := by
  rw [set_active_frame_fst]

/-- Reading the models list at a negative index in range reads the same
element as at the corresponding nonnegative index. -/
theorem pyGet_neg {α : Type} (l : List α) (k : ℤ) (h1 : 1 ≤ k)
    (h2 : k ≤ (l.length : ℤ)) :
    pyGet l (-k) = pyGet l ((l.length : ℤ) - k) := by
  simp only [pyGet, pyIndex]
  split_ifs <;> first | rfl | (congr 1; omega) | omega

/-- C3: for every model with at least one frame, setting the active frame
to a negative index minus k in the symmetric range stores that index and
resolves to the frame at position N minus k, the same position a request
of N minus k stores and resolves to; requests above the range store the
last index and requests below it store the negated size; the viewer's
active-model setter clamps identically and a negative stored index
addresses the same model as the corresponding nonnegative one; on a model
with three frames, requests of minus one and of five both resolve to
frame 2. -/
theorem C3_index_clamping :
    (∀ (m : Model) (k : ℤ), 1 ≤ k → k ≤ (m.num_frames : ℤ) →
      (m.set_active_frame (-k)).1.active_frame = -k ∧
      resolveFrameIndex m.num_frames ((m.set_active_frame (-k)).1.active_frame) =
        (m.num_frames : ℤ) - k ∧
      (m.set_active_frame ((m.num_frames : ℤ) - k)).1.active_frame =
        (m.num_frames : ℤ) - k ∧
      resolveFrameIndex m.num_frames
        ((m.set_active_frame ((m.num_frames : ℤ) - k)).1.active_frame) =
        (m.num_frames : ℤ) - k) ∧
    (∀ (m : Model) (v : ℤ), 1 ≤ m.num_frames →
      ((m.num_frames : ℤ) - 1 < v →
        (m.set_active_frame v).1.active_frame = (m.num_frames : ℤ) - 1) ∧
      (v < -(m.num_frames : ℤ) →
        (m.set_active_frame v).1.active_frame = -(m.num_frames : ℤ))) ∧
    (∀ (vw : Viewer) (k : ℤ), 1 ≤ k → k ≤ (vw.num_models : ℤ) →
      (vw.set_active_model (-k)).active_model = some (-k) ∧
      (vw.set_active_model (-k)).current_model =
        (vw.set_active_model ((vw.num_models : ℤ) - k)).current_model) ∧
    (∀ (vw : Viewer) (u : ℤ), 1 ≤ vw.num_models →
      ((vw.num_models : ℤ) - 1 < u →
        (vw.set_active_model u).active_model = some ((vw.num_models : ℤ) - 1)) ∧
      (u < -(vw.num_models : ℤ) →
        (vw.set_active_model u).active_model = some (-(vw.num_models : ℤ)))) ∧
    (∀ m : Model, m.num_frames = 3 →
      resolveFrameIndex ((m.set_active_frame (-1)).1.num_frames)
        ((m.set_active_frame (-1)).1.active_frame) = 2 ∧
      resolveFrameIndex
        (((m.set_active_frame (-1)).1.set_active_frame 5).1.num_frames)
        (((m.set_active_frame (-1)).1.set_active_frame 5).1.active_frame) = 2) := by
  refine ⟨?_, ?_, ?_, ?_, ?_⟩
  · intro m k h1 h2
    simp only [set_active_frame_active, resolveFrameIndex]
    refine ⟨?_, ?_, ?_, ?_⟩ <;> first | (split_ifs <;> omega) | omega
  · intro m v h1
    simp only [set_active_frame_active]
    constructor <;> intro hv <;> omega
  · intro vw k h1 h2
    have hnz : ¬ (vw.num_models = 0) := by omega
    constructor
    · unfold Viewer.set_active_model
      rw [if_neg hnz]
      have : max (-(vw.num_models : ℤ)) (min (-k) ((vw.num_models : ℤ) - 1)) = -k := by
        omega
      rw [this]
    · unfold Viewer.set_active_model
      rw [if_neg hnz, if_neg hnz]
      have ha : max (-(vw.num_models : ℤ)) (min (-k) ((vw.num_models : ℤ) - 1)) = -k := by
        omega
      have hb : max (-(vw.num_models : ℤ))
          (min ((vw.num_models : ℤ) - k) ((vw.num_models : ℤ) - 1)) =
          (vw.num_models : ℤ) - k := by
        omega
      rw [ha, hb]
      unfold Viewer.current_model
      exact pyGet_neg vw.models k h1 h2
  · intro vw u h1
    have hnz : ¬ (vw.num_models = 0) := by omega
    unfold Viewer.set_active_model
    rw [if_neg hnz]
    constructor <;> intro hu
    · have : max (-(vw.num_models : ℤ)) (min u ((vw.num_models : ℤ) - 1)) =
          (vw.num_models : ℤ) - 1 := by omega
      rw [this]
    · have : max (-(vw.num_models : ℤ)) (min u ((vw.num_models : ℤ) - 1)) =
          -(vw.num_models : ℤ) := by omega
      rw [this]
  · intro m h3
    simp only [set_active_frame_num_frames, set_active_frame_active, h3,
      resolveFrameIndex]
    constructor <;> split_ifs <;> omega

/-- Witness for C3 on a three-frame model and a two-model viewer. -/
theorem C3_witness :
    ((1 : ℤ) ≤ 1 ∧ (1 : ℤ) ≤ (testModel3.num_frames : ℤ) ∧
      (testModel3.set_active_frame (-1)).1.active_frame = -1 ∧
      resolveFrameIndex testModel3.num_frames
        ((testModel3.set_active_frame (-1)).1.active_frame) =
        (testModel3.num_frames : ℤ) - 1) ∧
    ((1 : ℤ) ≤ 1 ∧ (1 : ℤ) ≤ (testViewer.num_models : ℤ) ∧
      (testViewer.set_active_model (-1)).current_model =
        (testViewer.set_active_model ((testViewer.num_models : ℤ) - 1)).current_model) ∧
    (testModel3.num_frames = 3 ∧
      resolveFrameIndex ((testModel3.set_active_frame (-1)).1.num_frames)
        ((testModel3.set_active_frame (-1)).1.active_frame) = 2 ∧
      resolveFrameIndex
        (((testModel3.set_active_frame (-1)).1.set_active_frame 5).1.num_frames)
        (((testModel3.set_active_frame (-1)).1.set_active_frame 5).1.active_frame) = 2) :=
  ⟨⟨le_refl 1, by decide,
    (C3_index_clamping.1 testModel3 1 (le_refl 1) (by decide)).1,
    (C3_index_clamping.1 testModel3 1 (le_refl 1) (by decide)).2.1⟩,
   ⟨le_refl 1, by decide,
    (C3_index_clamping.2.2.1 testViewer 1 (le_refl 1) (by decide)).2⟩,
   ⟨by decide,
    (C3_index_clamping.2.2.2.2 testModel3 (by decide)).1,
    (C3_index_clamping.2.2.2.2 testModel3 (by decide)).2⟩⟩

/-- An index outside the symmetric range resolves to an IndexError. -/
theorem pyIndex_out (len : ℕ) (i : ℤ)
    (h : (len : ℤ) ≤ i ∨ i < -(len : ℤ)) : pyIndex len i = none := by
  simp only [pyIndex]
  split_ifs <;> first | rfl | omega

/-- C4 counterexample: on the freshly constructed single-representation
model, update_representation with index 1 raises an IndexError and leaves
the representations unchanged, instead of clamping the index and
overwriting a representation. -/
theorem C4_counterexample :
    testModel1.update_representation (RepStyle.str "vdw") none 1 =
      (testModel1, [], some PyErr.indexError) ∧
    (testModel1.update_representation (RepStyle.str "vdw") none 1).1.representations =
      testModel1.representations := by
  decide

/-- C4 amended: update_representation with an out-of-range index, positive
beyond the representation count or negative below its negation, raises an
IndexError and performs no replacement; no clamping occurs. -/
theorem C4_amended (m : Model) (style : RepStyle) (selection : Option PyDict)
    (i : ℤ)
    (h : (m.representations.length : ℤ) ≤ i ∨
      i < -(m.representations.length : ℤ)) :
    m.update_representation style selection i = (m, [], some PyErr.indexError) := by
  unfold Model.update_representation pySet
  rw [pyIndex_out _ _ h]

/-- Witness for C4 amended at a concrete out-of-range index. -/
theorem C4_witness :
    ((testModel1.representations.length : ℤ) ≤ 5 ∨
      (5 : ℤ) < -(testModel1.representations.length : ℤ)) ∧
    testModel1.update_representation (RepStyle.str "sticks") none 5 =
      (testModel1, [], some PyErr.indexError) :=
  ⟨Or.inl (by decide),
   C4_amended testModel1 (RepStyle.str "sticks") none 5 (Or.inl (by decide))⟩

/-- The per-species loop issues exactly one setStyle call per non-default
entry of the color table. -/
theorem speciesLoop_length (sd : List (String × ℕ)) (sel : PyDict)
    (cs : ColorTable) : ∀ sp : List PyDict,
    (speciesLoop sd sel cs sp).2.length =
      (cs.filter (fun p => !(p.1 == "default"))).length := by
  induction cs with
  | nil => intro sp; rfl
  | cons p rest ih =>
    intro sp
    by_cases h : p.1 = "default"
    · simp [speciesLoop, h, ih]
    · simp [speciesLoop, h, ih]

/-- C5 counterexample: the ball-and-stick style has two primitive styles
and forty non-default colors, yet apply issues forty-one setStyle calls in
total, one per selection plus one per non-default element, not the
eighty-two calls the per-primitive-style reading predicts. -/
theorem C5_counterexample :
    (testBS.apply none).2.length = 41 ∧
    testBS.styles.length = 2 ∧
    (testBS.colors.filter (fun p => !(p.1 == "default"))).length = 40 ∧
    ¬ ((testBS.apply none).2.length =
      testBS.styles.length *
        (1 + (testBS.colors.filter (fun p => !(p.1 == "default"))).length)) := by
  decide

/-- C5 amended: for every style whose primitive styles each carry one
parameter dictionary, apply issues exactly one setStyle call for the given
selection, carrying all primitive styles in a single style dictionary,
followed by one override setStyle call per non-default element of the
color table. -/
theorem C5_amended (s : AtomStyle) (selection : Option PyDict)
    (h : s.styles.length = s.style_specs.length) :
    (s.apply selection).2.length =
      1 + (s.colors.filter (fun p => !(p.1 == "default"))).length := by
  unfold AtomStyle.apply
  simp [speciesLoop_length]
  omega

/-- Witness for C5 amended on the ball-and-stick style. -/
theorem C5_witness :
    testBS.styles.length = testBS.style_specs.length ∧
    (testBS.apply none).2.length =
      1 + (testBS.colors.filter (fun p => !(p.1 == "default"))).length :=
  ⟨by decide, C5_amended testBS none (by decide)⟩

set_option maxRecDepth 100000 in
/-- C9 counterexample: apply mutates the stick style's parameter
dictionary in place, leaving a color entry holding the color of the last
non-default element of the table, so style_specs differs from its value
before the call. -/
theorem C9_counterexample :
    (testStick.apply none).1.style_specs =
      [[("radius", PyVal.rat (Rat.divInt 1 10)), ("color", PyVal.str "violet")]] ∧
    ¬ ((testStick.apply none).1.style_specs = testStick.style_specs) := by
  decide

/-- C9 amended: apply changes neither the styles list nor the colors
table of the style object; only the style_specs parameter dictionaries
are mutated. -/
theorem C9_amended (s : AtomStyle) (selection : Option PyDict) :
    (s.apply selection).1.styles = s.styles ∧
    (s.apply selection).1.colors = s.colors :=
  ⟨rfl, rfl⟩

set_option maxRecDepth 100000 in
/-- C6 counterexample: on the freshly constructed unattached model,
update_representation with the valid index 0 raises the not-attached
ValueError instead of succeeding without error. -/
theorem C6_counterexample :
    (testModel1.update_representation (RepStyle.str "vdw") none 0).2.2 =
      some (PyErr.valueError notAttachedMsg) ∧
    ¬ ((testModel1.update_representation (RepStyle.str "vdw") none 0).2.2 = none) := by
  decide

/-- C6 amended: with a valid index, update_representation replaces the
representation at that index; on an unattached model the replacement still
happens but the call raises the not-attached ValueError and issues no
render call, while on an attached model the call defers to update, which
re-renders. -/
theorem C6_amended (m : Model) (style : RepStyle) (selection : Option PyDict)
    (i : ℤ) (reps2 : List (PyDict × RepStyle))
    (hset : pySet m.representations i
      (m.new_selection selection, resolveStyle style) = some reps2) :
    (m._model = none →
      m.update_representation style selection i =
        ({ m with representations := reps2 }, [],
         some (PyErr.valueError notAttachedMsg))) ∧
    (m._model = some () →
      m.update_representation style selection i =
        Model.update { m with representations := reps2 }) := by
  unfold Model.update_representation
  rw [hset]
  constructor
  · intro hm
    unfold Model.update
    simp only [hm]
  · intro hm
    rfl

set_option maxRecDepth 100000 in
/-- Witness for C6 amended on the freshly constructed unattached model. -/
theorem C6_witness :
    testModel1._model = none ∧
    pySet testModel1.representations 0
      (testModel1.new_selection none, resolveStyle (RepStyle.str "sticks")) =
      some sticksRep ∧
    testModel1.update_representation (RepStyle.str "sticks") none 0 =
      ({ testModel1 with representations := sticksRep }, [],
       some (PyErr.valueError notAttachedMsg)) :=
  ⟨rfl, by decide,
   (C6_amended testModel1 (RepStyle.str "sticks") none 0 sticksRep (by decide)).1 rfl⟩

/-- The loop of update maps cleanly over representations whose styles are
all resolved style objects: no error, and the trace is the concatenation
of the per-representation apply traces. -/
theorem applyReps_resolved (reps : List (PyDict × RepStyle))
    (h : stylesResolved reps = true) :
    (applyReps reps).2.1 = repsTrace reps ∧ (applyReps reps).2.2 = none := by
  induction reps with
  | nil => exact ⟨rfl, rfl⟩
  | cons r rest ih =>
    obtain ⟨sel, st⟩ := r
    cases st with
    | str s => simp [stylesResolved] at h
    | style a =>
      have h2 : stylesResolved rest = true := by
        simpa [stylesResolved] using h
      obtain ⟨h3, h4⟩ := ih h2
      simp [applyReps, repsTrace, h3, h4]

/-- C7: update on a model never attached to a view raises the not-attached
ValueError and does nothing else; on an attached model whose
representations hold resolved styles it succeeds, re-applying every stored
representation in order and then re-setting the current frame on the
render target. -/
theorem C7_update (m : Model) :
    (m._model = none →
      m.update = (m, [], some (PyErr.valueError notAttachedMsg))) ∧
    (m._model = some () → stylesResolved m.representations = true →
      m.update =
        ({ m with representations := (applyReps m.representations).1 },
         repsTrace m.representations ++ [RenderCall.setFrame m.active_frame],
         none)) := by
  constructor
  · intro hm
    unfold Model.update
    simp only [hm]
  · intro hm hres
    obtain ⟨h1, h2⟩ := applyReps_resolved m.representations hres
    unfold Model.update
    simp only [hm, h1, h2]

/-- Witness for C7 on an unattached and on an attached concrete model. -/
theorem C7_witness :
    (testModel1._model = none ∧
      testModel1.update = (testModel1, [], some (PyErr.valueError notAttachedMsg))) ∧
    (attachedModel._model = some () ∧
      stylesResolved attachedModel.representations = true ∧
      attachedModel.update =
        ({ attachedModel with
            representations := (applyReps attachedModel.representations).1 },
         repsTrace attachedModel.representations ++
           [RenderCall.setFrame attachedModel.active_frame], none)) :=
  ⟨⟨rfl, (C7_update testModel1).1 rfl⟩,
   ⟨rfl, by decide, (C7_update attachedModel).2 rfl (by decide)⟩⟩

set_option maxRecDepth 100000 in
/-- C8 counterexample: after adding a sticks representation to a freshly
constructed model and replacing the representation at index 0 with the
van-der-Waals style, the model holds two representations, not exactly
one. -/
theorem C8_counterexample :
    ¬ (((testModel8.update_representation (RepStyle.str "vdw") none 0).1).representations.length = 1) := by
  decide

set_option maxRecDepth 100000 in
/-- C8 amended: the freshly constructed model already holds the
constructor's default representation, so after add_representation of
sticks and update_representation of vdw at index 0 it holds exactly two
representations, the van-der-Waals style at index 0 and the sticks style
at index 1; the update_representation call raises the not-attached
ValueError because the fresh model is unattached, while the replacement
persists. -/
theorem C8_amended :
    ((testModel8.update_representation (RepStyle.str "vdw") none 0).1).representations.length = 2 ∧
    (pyGet ((testModel8.update_representation (RepStyle.str "vdw") none 0).1).representations 0).map
      (fun r => r.2) = some (RepStyle.style (VanDerWaalsStyle 1)) ∧
    (pyGet ((testModel8.update_representation (RepStyle.str "vdw") none 0).1).representations 1).map
      (fun r => r.2) = some (RepStyle.style (StickStyle (Rat.divInt 1 10))) ∧
    (testModel8.update_representation (RepStyle.str "vdw") none 0).2.2 =
      some (PyErr.valueError notAttachedMsg) := by
  decide

/-- C10: on an unattached model, update_representation with a valid index
raises the not-attached ValueError, yet the representation list returned
with the error already carries the replacement, which persists. -/
theorem C10_mutation_persists (m : Model) (style : RepStyle)
    (selection : Option PyDict) (i : ℤ) (reps2 : List (PyDict × RepStyle))
    (hm : m._model = none)
    (hset : pySet m.representations i
      (m.new_selection selection, resolveStyle style) = some reps2) :
    m.update_representation style selection i =
      ({ m with representations := reps2 }, [],
       some (PyErr.valueError notAttachedMsg)) ∧
    (m.update_representation style selection i).1.representations = reps2 := by
  unfold Model.update_representation
  rw [hset]
  unfold Model.update
  constructor
  · simp only [hm]
  · simp only [hm]

set_option maxRecDepth 100000 in
/-- Witness for C10 at the negative index minus one on the freshly
constructed unattached model. -/
theorem C10_witness :
    testModel1._model = none ∧
    pySet testModel1.representations (-1)
      (testModel1.new_selection none, resolveStyle (RepStyle.str "vdw")) =
      some vdwRep ∧
    testModel1.update_representation (RepStyle.str "vdw") none (-1) =
      ({ testModel1 with representations := vdwRep }, [],
       some (PyErr.valueError notAttachedMsg)) :=
  ⟨rfl, by decide,
   (C10_mutation_persists testModel1 (RepStyle.str "vdw") none (-1) vdwRep rfl
     (by decide)).1⟩

end Aetoms
